import Mathlib

/-!
Shallow embedding of `toolsrc/include/vcpkg/base/files.h` (vcpkg's
filesystem abstraction layer) and proofs of its specified properties.

The header is platform-conditional (`#if defined(_WIN32)`); conditionals
are embedded as an explicit `win32 : Bool` parameter where the code
branches on the platform, and the `file_type` enumeration is the superset
of both platform variants (the POSIX variant simply never produces
`directory_symlink`).
-/

namespace fs

/-- The `file_type` enumeration from files.h (Windows variant, lines 55-69);
the POSIX variant is `std::filesystem::file_type`, the same set of values
without `directory_symlink`. -/
inductive file_type where
  | none
  | not_found
  | regular
  | directory
  | symlink
  | block
  | character
  | fifo
  | socket
  | unknown
  | directory_symlink
  deriving DecidableEq, Repr

/-- `fs::perms` is a bitmask enumeration; the claims only depend on the
`unknown` value, so we embed the bitmask as a natural number. -/
abbrev perms := Nat

/-- `perms::unknown` (value 0xFFFF in the standard). -/
def perms.unknown : perms := 0xFFFF

/-- `fs::file_status` (files.h lines 71-87): a `{type, permissions}` pair
whose constructor defaults are `file_type::none` and `perms::unknown`. -/
structure file_status where
  m_type : file_type := file_type.none
  m_permissions : perms := perms.unknown
  deriving DecidableEq, Repr

/-- Accessor `file_status::type()`. -/
def file_status.type (s : file_status) : file_type := s.m_type

/-- Accessor `file_status::permissions()`. -/
def file_status.permissions (s : file_status) : perms := s.m_permissions

/-- `fs::SystemHandle` (files.h lines 89-95 Windows / 109-115 POSIX):
a native handle (HANDLE as intptr_t, or an int file descriptor)
defaulting to the sentinel -1. -/
structure SystemHandle where
  system_handle : Int := -1
  deriving DecidableEq, Repr

/-- `SystemHandle::is_valid()` (files.h lines 94 / 114). -/
def SystemHandle.is_valid (h : SystemHandle) : Bool :=
  h.system_handle != -1

/-- `fs::is_symlink` (files.h lines 119-125). The `#if defined(_WIN32)`
branch is the `win32` parameter. -/
def is_symlink (win32 : Bool) (s : file_status) : Bool :=
  if win32 && (s.type == file_type.directory_symlink) then true
  else s.type == file_type.symlink

/-- `fs::is_regular_file` (files.h line 126). -/
def is_regular_file (s : file_status) : Bool :=
  s.type == file_type.regular

/-- `fs::is_directory` (files.h line 127). -/
def is_directory (s : file_status) : Bool :=
  s.type == file_type.directory

/-- `fs::exists` (files.h line 128). -/
def exists_ (s : file_status) : Bool :=
  s.type != file_type.not_found && s.type != file_type.none

end fs

namespace vcpkg.Files

/-- `FILESYSTEM_INVALID_CHARACTERS` (files.h line 231): the raw string
R"(\/:*?"<>|)", embedded as its list of characters. -/
def FILESYSTEM_INVALID_CHARACTERS : List Char :=
  ['\\', '/', ':', '*', '?', '"', '<', '>', '|']

/-- Modelled from the spec: `has_invalid_chars_for_filesystem` is declared in
files.h (line 233) but its body is not under src/. Spec: name validation
rejects a string iff it contains one of the reserved characters. -/
def has_invalid_chars_for_filesystem (s : List Char) : Bool :=
  s.any (fun c => FILESYSTEM_INVALID_CHARACTERS.contains c)

/-- Strip at most one trailing carriage-return from a line (files.h line 158
documents this for read_lines: "Lines will have up to one trailing
carriage-return character stripped (CRLF)"). -/
def stripOneTrailingCR (line : List Char) : List Char :=
  match line.getLast? with
  | some c => if c = '\r' then line.dropLast else line
  | _ => line

/-- Split file contents into lines at newline characters with getline
granularity: each newline terminates a line, and a final newline does not
produce an extra empty line. -/
def getLinesAux : List Char → List Char → List (List Char)
  | [], acc => [acc.reverse]
  | c :: rest, acc =>
    if c = '\n' then
      match rest with
      | [] => [acc.reverse]
      | _ :: _ => acc.reverse :: getLinesAux rest []
    else getLinesAux rest (c :: acc)

/-- Modelled from the spec: `read_lines` is a pure virtual method of the
Filesystem interface (files.h line 159) and its body is not under src/.
Spec: split the file's contents into lines and strip at most one trailing
carriage-return per line (CRLF to LF normalization at line granularity
only). -/
def read_lines (contents : List Char) : List (List Char) :=
  match contents with
  | [] => []
  | _ :: _ => (getLinesAux contents []).map stripOneTrailingCR

/-- The bounded lock-acquisition budget in milliseconds (files.h line 222:
"waits, at most, 1.5 seconds, for the file lock"). -/
def LOCK_BUDGET_MS : Nat := 1500

/-- Polling loop for the bounded lock: at each attempt, if the lock is
acquirable at the current elapsed time, return a handle carrying the native
value `fd`; otherwise wait `interval` milliseconds and retry until the fuel
(number of attempts) is exhausted. Returns the handle and the elapsed time. -/
def tryLockGo (avail : Nat → Bool) (fd : Int) (interval : Nat) :
    Nat → Nat → fs.SystemHandle × Nat
  | 0, elapsed => ({ system_handle := -1 }, elapsed)
  | fuel + 1, elapsed =>
    if avail elapsed then ({ system_handle := fd }, elapsed)
    else tryLockGo avail fd interval fuel (elapsed + interval)

/-- Modelled from the spec: `try_take_exclusive_file_lock` is a pure virtual
method (files.h line 223) and its body is not under src/. Spec: attempt the
lock for a fixed budget of about 1.5 seconds (the retry cadence within the
budget is unspecified) and fail with an invalid SystemHandle, rather than
blocking indefinitely, if the lock is not acquired within the budget.
`avail t` says whether the lock is acquirable at elapsed time t, `fd` is the
native value the provider would hand back, and `interval` is the polling
interval. -/
def try_take_exclusive_file_lock (avail : Nat → Bool) (fd : Int)
    (interval : Nat) : fs.SystemHandle × Nat :=
  tryLockGo avail fd interval (LOCK_BUDGET_MS / interval + 1) 0

/-- Modelled from the spec: the `status` primitive is a pure virtual method
(files.h line 204) and its body is not under src/. Spec: a query on a
non-existent path yields `not_found`, never an exception; a successful query
reports the entry's status. `world` is the native provider's view, mapping
each existing path to its status. -/
def statusQuery (world : String → Option fs.file_status) (p : String) :
    fs.file_status :=
  match world p with
  | some s => s
  | none => { m_type := fs.file_type.not_found, m_permissions := fs.perms.unknown }

end vcpkg.Files

/-- If a list's last element is c, the list is its dropLast followed by c. -/
theorem getLast_some_decomp {α : Type} (l : List α) (c : α)
    (h : l.getLast? = some c) : l = l.dropLast ++ [c] := by
  induction l with
  | nil => simp at h
  | cons x xs ih =>
    cases xs with
    | nil =>
      simp [List.getLast?] at h
      simp [h]
    | cons y ys =>
      rw [List.getLast?_cons_cons] at h
      have hx := ih h
      calc x :: y :: ys = x :: ((y :: ys).dropLast ++ [c]) := by rw [← hx]
        _ = (x :: y :: ys).dropLast ++ [c] := by simp

/-- When the lock is never acquirable, the polling loop burns all its fuel,
waiting `interval` between attempts, and returns the invalid handle. -/
theorem tryLockGo_fail (avail : Nat → Bool) (fd : Int) (interval : Nat)
    (hav : ∀ t, avail t = false) :
    ∀ fuel elapsed, vcpkg.Files.tryLockGo avail fd interval fuel elapsed =
      ({ system_handle := -1 }, elapsed + fuel * interval) := by
  intro fuel
  induction fuel with
  | zero => intro elapsed; simp [vcpkg.Files.tryLockGo]
  | succ n ih =>
    intro elapsed
    rw [vcpkg.Files.tryLockGo, hav, ih]
    simp
    ring

/-- C1: for every file_status s, is_symlink is true exactly when the type is
the genuine symlink type, or (on Windows) the distinct directory_symlink
(junction) type; for every other type it is false. -/
theorem C1_is_symlink_spec (win32 : Bool) (s : fs.file_status) :
    fs.is_symlink win32 s = true ↔
      (s.type = fs.file_type.symlink ∨
        (win32 = true ∧ s.type = fs.file_type.directory_symlink)) := by
  cases win32 <;> cases h : s.type <;>
    simp [fs.is_symlink, h]

/-- C2: for every file_status s, exists is true iff the type is neither
not_found nor none. -/
theorem C2_exists_spec (s : fs.file_status) :
    fs.exists_ s = true ↔
      (s.type ≠ fs.file_type.not_found ∧ s.type ≠ fs.file_type.none) := by
  cases h : s.type <;> simp [fs.exists_, h]

/-- C4: the bounded lock acquisition waits at most the ~1.5 second budget
(plus at most one polling interval) and, when the lock is never acquirable,
fails with an invalid SystemHandle rather than blocking indefinitely. -/
theorem C4_try_lock_bounded (avail : Nat → Bool) (fd : Int) (interval : Nat)
    (hav : ∀ t, avail t = false) :
    (vcpkg.Files.try_take_exclusive_file_lock avail fd interval).1.is_valid = false ∧
    (vcpkg.Files.try_take_exclusive_file_lock avail fd interval).2 ≤
      vcpkg.Files.LOCK_BUDGET_MS + interval := by
  unfold vcpkg.Files.try_take_exclusive_file_lock
  rw [tryLockGo_fail avail fd interval hav]
  refine ⟨rfl, ?_⟩
  simp only [Nat.zero_add]
  calc (vcpkg.Files.LOCK_BUDGET_MS / interval + 1) * interval
      = vcpkg.Files.LOCK_BUDGET_MS / interval * interval + interval := by ring
    _ ≤ vcpkg.Files.LOCK_BUDGET_MS + interval :=
        Nat.add_le_add_right (Nat.div_mul_le_self _ _) _

/-- Witness for C4 at a concrete never-acquirable lock, fd 5, 100 ms polls. -/
theorem C4_try_lock_bounded_witness :
    (vcpkg.Files.try_take_exclusive_file_lock (fun _ => false) 5 100).1.is_valid = false ∧
    (vcpkg.Files.try_take_exclusive_file_lock (fun _ => false) 5 100).2 ≤
      vcpkg.Files.LOCK_BUDGET_MS + 100 :=
  C4_try_lock_bounded (fun _ => false) 5 100 (fun _ => rfl)

/-- C5: read_lines splits the contents into lines stripping at most one
trailing carriage-return per line; in particular reading a file containing
"a\r\nb\n" yields exactly the two lines ["a", "b"]. -/
theorem C5_read_lines :
    vcpkg.Files.read_lines ['a', '\r', '\n', 'b', '\n'] = [['a'], ['b']] ∧
    (∀ l : List Char, vcpkg.Files.stripOneTrailingCR l = l ∨
      l = vcpkg.Files.stripOneTrailingCR l ++ ['\r']) := by
  refine ⟨rfl, fun l => ?_⟩
  cases hl : l.getLast? with
  | none => exact Or.inl (by simp [vcpkg.Files.stripOneTrailingCR, hl])
  | some c =>
    by_cases hc : c = '\r'
    · subst hc
      refine Or.inr ?_
      have hd := getLast_some_decomp l _ hl
      simp [vcpkg.Files.stripOneTrailingCR, hl]
      exact hd
    · exact Or.inl (by simp [vcpkg.Files.stripOneTrailingCR, hl, hc])

/-- C6: a file_status is never left with an uninitialized type: default
construction yields type none and permissions unknown; the status query
always stores one of the defined FileType values, and a query on a
non-existent path yields not_found rather than an exception. -/
theorem C6_file_status_initialized :
    (({} : fs.file_status).type = fs.file_type.none ∧
      ({} : fs.file_status).permissions = fs.perms.unknown) ∧
    (∀ p : String,
      (vcpkg.Files.statusQuery (fun _ => Option.none) p).type =
        fs.file_type.not_found) ∧
    (∀ (world : String → Option fs.file_status) (p : String),
      (vcpkg.Files.statusQuery world p).type ∈
        [fs.file_type.none, fs.file_type.not_found, fs.file_type.regular,
         fs.file_type.directory, fs.file_type.symlink, fs.file_type.block,
         fs.file_type.character, fs.file_type.fifo, fs.file_type.socket,
         fs.file_type.unknown, fs.file_type.directory_symlink]) := by
  refine ⟨⟨rfl, rfl⟩, fun p => rfl, fun world p => ?_⟩
  cases h : (vcpkg.Files.statusQuery world p).type <;> simp

/-- C7: a default-constructed SystemHandle (no acquisition) is invalid;
is_valid is decided exactly by the native value differing from the sentinel
-1; and a successful acquisition stores the provider's native value into the
handle. -/
theorem C7_system_handle_validity :
    ({} : fs.SystemHandle).is_valid = false ∧
    (∀ h : fs.SystemHandle, h.is_valid = true ↔ h.system_handle ≠ -1) ∧
    (∀ fd : Int,
      (vcpkg.Files.try_take_exclusive_file_lock (fun _ => true) fd 100).1.system_handle
        = fd) := by
  refine ⟨rfl, fun h => ?_, fun fd => rfl⟩
  simp [fs.SystemHandle.is_valid]

/-- C8: the reserved/invalid filesystem character set is exactly the nine
characters backslash, slash, colon, star, question mark, double quote, less
than, greater than, pipe; has_invalid_chars_for_filesystem is true iff the
string contains at least one of them. -/
theorem C8_invalid_chars :
    vcpkg.Files.FILESYSTEM_INVALID_CHARACTERS =
      ['\\', '/', ':', '*', '?', '"', '<', '>', '|'] ∧
    vcpkg.Files.FILESYSTEM_INVALID_CHARACTERS.length = 9 ∧
    (∀ s : List Char,
      vcpkg.Files.has_invalid_chars_for_filesystem s = true ↔
        ∃ c ∈ s, c ∈ vcpkg.Files.FILESYSTEM_INVALID_CHARACTERS) := by
  refine ⟨rfl, rfl, fun s => ?_⟩
  simp [vcpkg.Files.has_invalid_chars_for_filesystem, List.any_eq_true]

/-- C9: is_directory holds only when the type is exactly directory, and
is_regular_file only when it is exactly regular; in particular a Windows
junction status (directory_symlink) satisfies is_symlink but neither
is_directory nor is_regular_file. -/
theorem C9_directory_regular_exact :
    (∀ s : fs.file_status,
      (fs.is_directory s = true ↔ s.type = fs.file_type.directory) ∧
      (fs.is_regular_file s = true ↔ s.type = fs.file_type.regular)) ∧
    (fs.is_symlink true { m_type := fs.file_type.directory_symlink } = true ∧
      fs.is_directory { m_type := fs.file_type.directory_symlink } = false ∧
      fs.is_regular_file { m_type := fs.file_type.directory_symlink } = false) := by
  refine ⟨fun s => ?_, by decide⟩
  cases h : s.type <;> simp [fs.is_directory, fs.is_regular_file, h]

/-- C10: the predicates is_symlink, is_regular_file, is_directory and exists
depend only on the type field of a file_status: two statuses with equal type
but arbitrary permissions get the same result from each predicate. -/
theorem C10_predicates_type_only (s₁ s₂ : fs.file_status)
    (h : s₁.type = s₂.type) :
    (∀ w : Bool, fs.is_symlink w s₁ = fs.is_symlink w s₂) ∧
    fs.is_regular_file s₁ = fs.is_regular_file s₂ ∧
    fs.is_directory s₁ = fs.is_directory s₂ ∧
    fs.exists_ s₁ = fs.exists_ s₂ := by
  refine ⟨fun w => ?_, ?_, ?_, ?_⟩ <;>
    simp [fs.is_symlink, fs.is_regular_file, fs.is_directory, fs.exists_, h]

/-- Witness for C10 at two concrete statuses sharing the regular type but
holding different permission bits. -/
theorem C10_predicates_type_only_witness :
    (∀ w : Bool,
      fs.is_symlink w { m_type := fs.file_type.regular, m_permissions := 0 } =
      fs.is_symlink w { m_type := fs.file_type.regular, m_permissions := 7 }) ∧
    fs.is_regular_file { m_type := fs.file_type.regular, m_permissions := 0 } =
      fs.is_regular_file { m_type := fs.file_type.regular, m_permissions := 7 } ∧
    fs.is_directory { m_type := fs.file_type.regular, m_permissions := 0 } =
      fs.is_directory { m_type := fs.file_type.regular, m_permissions := 7 } ∧
    fs.exists_ { m_type := fs.file_type.regular, m_permissions := 0 } =
      fs.exists_ { m_type := fs.file_type.regular, m_permissions := 7 } :=
  C10_predicates_type_only
    { m_type := fs.file_type.regular, m_permissions := 0 }
    { m_type := fs.file_type.regular, m_permissions := 7 } rfl
